import Mathlib

/-
Verification of the goagents runtime orchestration engine.

Shallow embedding of:
  pkg/agent/types.go, pkg/agent/lifecycle.go   (agent data model, lifecycle Manager)
  pkg/runtime/engine.go                         (Engine: clusters, dispatch, metrics)
  pkg/config/types.go, pkg/config/loader.go     (cluster manifests, validateAgentCluster)
  pkg/providers/types.go                        (provider registry boundary)

Modelling conventions:
  - Wall-clock times (time.Now(), time.Time, time.Duration) are Nat nanoseconds,
    passed explicitly to each operation that reads the clock.
  - Go maps are association lists with first-match lookup; map insertion is cons,
    which shadows older entries exactly like overwriting.
  - Goroutines are explicit steps: StartAgent's `go m.runAgent(agent)` sets the
    agent's `supervised` flag, and the goroutine's actions (entering running,
    idle-timer firing, observing context cancellation) are separate functions
    applied by the environment.
  - context.WithCancel / cancel() is the Boolean `ctxCancelled` on the agent.
  - The Provider interface's Chat is an oracle function argument
    `chat : ChatRequest → Except String ChatResponse`; its error value stands
    for the rendered Go error.
  - Go int64 counters are Int (no increment here approaches overflow; wraparound
    is irrelevant to the properties considered). float64 CPUUsage is omitted
    (floating point, never read by the code under consideration).
  - Logging and the tool manager (engine.go tool registration) are side effects
    invisible to every property below and are omitted.
-/

deriving instance DecidableEq for Except

namespace GoAgents

/-- Lifecycle status of an agent (pkg/agent/types.go, `Status`). -/
inductive Status where
  | pending
  | starting
  | running
  | idle
  | stopping
  | stopped
  | failed
deriving DecidableEq, Repr

/-- The string rendering of a status, as used in Go error messages. -/
def Status.str : Status → String
  | .pending => "pending"
  | .starting => "starting"
  | .running => "running"
  | .idle => "idle"
  | .stopping => "stopping"
  | .stopped => "stopped"
  | .failed => "failed"

/-- pkg/agent/types.go `ResourceConfig` (timeout in nanoseconds, 0 = unset). -/
structure ResourceConfig where
  memoryLimit : String := ""
  cpuLimit : String := ""
  timeout : Nat := 0
deriving DecidableEq, Repr

/-- pkg/agent/types.go `ScalingConfig`. -/
structure ScalingConfig where
  minInstances : Int := 0
  maxInstances : Int := 0
deriving DecidableEq, Repr

/-- pkg/agent/types.go `AgentConfig` (tool declarations omitted: never read by
the lifecycle or dispatch code modelled here). -/
structure AgentConfig where
  provider : String
  model : String
  systemPrompt : String := ""
  resources : ResourceConfig := {}
  scaling : ScalingConfig := {}
  environment : List (String × String) := []
deriving DecidableEq, Repr

/-- pkg/agent/types.go `AgentMetrics` (float64 CPUUsage omitted). -/
structure AgentMetrics where
  requestsTotal : Int := 0
  requestsSucceeded : Int := 0
  requestsFailed : Int := 0
  responseTime : Int := 0
  memoryUsage : Int := 0
  lastRequestTime : Nat := 0
deriving DecidableEq, Repr

/-- pkg/agent/types.go `Agent`. `ctxCancelled` models the agent's
context.WithCancel context having been cancelled; `supervised` models the
existence of the per-agent runAgent goroutine spawned by StartAgent. -/
structure Agent where
  id : String
  name : String
  clusterName : String := ""
  config : AgentConfig
  status : Status
  createdAt : Nat
  updatedAt : Nat
  lastActivity : Nat
  errorMessage : String := ""
  ctxCancelled : Bool := false
  supervised : Bool := false
  metrics : AgentMetrics := {}
deriving DecidableEq, Repr

/-- pkg/agent/types.go `Message` (metadata map omitted: never read). -/
structure AgentMessage where
  id : String := ""
  role : String
  content : String
  timestamp : Nat := 0
deriving DecidableEq, Repr

/-- pkg/agent/types.go `Request` (tools/context fields omitted: never read by
the engine or lifecycle code). -/
structure Request where
  id : String
  messages : List AgentMessage := []
  timeout : Nat := 0
deriving DecidableEq, Repr

/-- pkg/providers/types.go `Usage`. -/
structure Usage where
  promptTokens : Int := 0
  completionTokens : Int := 0
  totalTokens : Int := 0
deriving DecidableEq, Repr

/-- The metadata map the engine puts on a successful Response
(engine.go lines 304-312): model, provider, usage. -/
structure RespMetadata where
  model : String
  provider : String
  usage : Option Usage
deriving DecidableEq, Repr

/-- pkg/agent/types.go `Response` (ToolUses omitted: never produced by the
code modelled here; the metadata map is modelled by its actual payload). -/
structure Response where
  id : String
  content : String := ""
  error : String := ""
  metadata : Option RespMetadata := none
deriving DecidableEq, Repr

/-- pkg/providers/types.go `Message`. -/
structure ChatMessage where
  role : String
  content : String
deriving DecidableEq, Repr

/-- pkg/providers/types.go `ChatRequest` (fields the engine populates). -/
structure ChatRequest where
  model : String
  messages : List ChatMessage
deriving DecidableEq, Repr

/-- pkg/providers/types.go `ChatResponse`. -/
structure ChatResponse where
  id : String := ""
  content : String
  usage : Option Usage := none
  model : String := ""
deriving DecidableEq, Repr

/-- First-match association-list lookup: the model of Go map indexing. -/
def lookupKey {α : Type} : List (String × α) → String → Option α
  | [], _ => none
  | (k, v) :: rest, key => if k = key then some v else lookupKey rest key

/-- Update the entries stored under a key: the model of mutating the value a
Go map holds (a pointer dereference plus field writes). -/
def updateEntry {α : Type} : List (String × α) → String → (α → α) → List (String × α)
  | [], _, _ => []
  | (k, v) :: rest, key, f =>
    if k = key then (k, f v) :: updateEntry rest key f
    else (k, v) :: updateEntry rest key f

/-- pkg/agent/lifecycle.go `Manager` (the registry of agents). -/
structure Manager where
  agents : List (String × Agent) := []
deriving DecidableEq, Repr

/-- lifecycle.go `generateAgentID`: "agent-%d" of time.Now().UnixNano(). -/
def generateAgentID (nowNano : Nat) : String :=
  "agent-" ++ toString nowNano

/-- Manager map read (the registry side of GetAgent). -/
def Manager.lookupAgent (m : Manager) (agentID : String) : Option Agent :=
  lookupKey m.agents agentID

/-- In-place update of one registry entry (the model of mutating the shared
`*Agent` behind its pointer). -/
def Manager.setAgent (m : Manager) (agentID : String) (f : Agent → Agent) : Manager :=
  { m with agents := updateEntry m.agents agentID f }

/-- Go `delete(m.agents, agentID)`. -/
def Manager.removeAgent (m : Manager) (agentID : String) : Manager :=
  { m with agents := m.agents.filter fun p => if p.1 = agentID then false else true }

/-- lifecycle.go `CreateAgent` (lines 28-52): allocates an id from the clock,
registers a pending agent with all three timestamps set to now. The Go
function's error result is always nil; accordingly the model is total. -/
def Manager.createAgent (m : Manager) (config : AgentConfig) (nowNano : Nat) :
    Manager × Agent :=
  let id := generateAgentID nowNano
  let agent : Agent :=
    { id := id, name := id, config := config, status := .pending,
      createdAt := nowNano, updatedAt := nowNano, lastActivity := nowNano,
      ctxCancelled := false, supervised := false, metrics := {} }
  ({ m with agents := (id, agent) :: m.agents }, agent)

/-- lifecycle.go `StartAgent` (lines 54-83): unknown id errors; any status
other than pending or stopped errors; otherwise status becomes starting and
the runAgent supervision goroutine is spawned (`supervised := true`). -/
def Manager.startAgent (m : Manager) (agentID : String) (now : Nat) :
    Except String Manager :=
  match m.lookupAgent agentID with
  | none => .error ("agent not found: " ++ agentID)
  | some agent =>
    if agent.status ≠ .pending ∧ agent.status ≠ .stopped then
      .error ("agent " ++ agentID ++ " is in invalid state for starting: " ++ agent.status.str)
    else
      .ok (m.setAgent agentID fun a =>
        { a with status := .starting, updatedAt := now, supervised := true })

/-- lifecycle.go `StopAgent` (lines 85-111): unknown id errors; stopped or
stopping is a silent no-op; otherwise status becomes stopping and the agent's
context is cancelled. -/
def Manager.stopAgent (m : Manager) (agentID : String) (now : Nat) :
    Except String Manager :=
  match m.lookupAgent agentID with
  | none => .error ("agent not found: " ++ agentID)
  | some agent =>
    if agent.status = .stopped ∨ agent.status = .stopping then
      .ok m
    else
      .ok (m.setAgent agentID fun a =>
        { a with status := .stopping, updatedAt := now, ctxCancelled := true })

/-- lifecycle.go `DeleteAgent` (lines 137-154): unknown id errors; the agent's
cancel function is invoked only when status is exactly running; the agent is
removed either way. The Bool reports whether cancel() was invoked. -/
def Manager.deleteAgent (m : Manager) (agentID : String) :
    Except String (Manager × Bool) :=
  match m.lookupAgent agentID with
  | none => .error ("agent not found: " ++ agentID)
  | some agent =>
    .ok (m.removeAgent agentID, if agent.status = .running then true else false)

/-- The entry of the runAgent supervision goroutine (lifecycle.go lines
221-227): the started agent transitions starting → running. -/
def Manager.runAgentEnter (m : Manager) (agentID : String) (now : Nat) : Manager :=
  m.setAgent agentID fun a => { a with status := .running, updatedAt := now }

def nanosPerSecond : Nat := 1000000000

/-- lifecycle.go lines 229-232: the configured idle timeout, defaulting to
five minutes when the resource timeout is unset. -/
def Agent.idleTimeout (a : Agent) : Nat :=
  if a.config.resources.timeout > 0 then a.config.resources.timeout
  else 5 * 60 * nanosPerSecond

/-- The idle-timer branch of runAgent (lifecycle.go lines 247-266): on timer
expiry, if now − lastActivity ≥ idleTimeout the status becomes idle. -/
def Manager.idleTimerFire (m : Manager) (agentID : String) (now : Nat) : Manager :=
  match m.lookupAgent agentID with
  | none => m
  | some agent =>
    if now - agent.lastActivity ≥ agent.idleTimeout then
      m.setAgent agentID fun a => { a with status := .idle, updatedAt := now }
    else m

/-- The ctx.Done branch of runAgent (lifecycle.go lines 239-245): the
supervision goroutine observes cancellation and finalizes status stopped,
then returns. Enabled only when the goroutine exists and the context was
cancelled. -/
def Manager.supervisorFinalize (m : Manager) (agentID : String) (now : Nat) : Manager :=
  match m.lookupAgent agentID with
  | none => m
  | some agent =>
    if agent.supervised ∧ agent.ctxCancelled then
      m.setAgent agentID fun a =>
        { a with status := .stopped, updatedAt := now, supervised := false }
    else m

/-- The post-`ready` body of Manager.ProcessRequest (lifecycle.go lines
183-218): refresh lastActivity, bump per-agent requestsTotal, produce the mock
response, bump requestsSucceeded and lastRequestTime. -/
def Manager.serveRequest (m : Manager) (agentID : String) (req : Request) (now : Nat) :
    Manager × Response :=
  match m.lookupAgent agentID with
  | none => (m, { id := req.id })
  | some agent =>
    let resp : Response := { id := req.id, content := "Mock response from agent " ++ agent.name }
    (m.setAgent agentID fun a =>
      { a with lastActivity := now,
               metrics := { a.metrics with
                  requestsTotal := a.metrics.requestsTotal + 1,
                  requestsSucceeded := a.metrics.requestsSucceeded + 1,
                  lastRequestTime := now } }, resp)

/-- lifecycle.go `Manager.ProcessRequest` (lines 156-219): unknown id errors;
a non-running agent is first routed through StartAgent, whose failure is
wrapped as "failed to start agent"; on successful start the spawned
supervision goroutine's first action (status running) is what the 100ms poll
loop observes, modelled as an immediate `runAgentEnter` (the 30s
startup-timeout path is a real-time race not modelled). -/
def Manager.processRequest (m : Manager) (agentID : String) (req : Request) (now : Nat) :
    Except String (Manager × Response) :=
  match m.lookupAgent agentID with
  | none => .error ("agent not found: " ++ agentID)
  | some agent =>
    if agent.status ≠ .running then
      match m.startAgent agentID now with
      | .error e => .error ("failed to start agent: " ++ e)
      | .ok m1 => .ok ((m1.runAgentEnter agentID now).serveRequest agentID req now)
    else
      .ok (m.serveRequest agentID req now)

/-- pkg/config/types.go `Metadata`. -/
structure CMetadata where
  name : String
  nameSpace : String := ""
deriving DecidableEq, Repr

/-- pkg/config/types.go `ResourcePolicy`. -/
structure CResourcePolicy where
  maxConcurrentAgents : Int := 0
  idleTimeout : Nat := 0
  scaleToZero : Bool := false
deriving DecidableEq, Repr

/-- pkg/config/types.go `Agent` (the manifest-level agent declaration; named
ConfigAgent to avoid clashing with the runtime Agent). Tool declarations are
omitted: they only feed the tool manager. -/
structure ConfigAgent where
  name : String
  provider : String
  model : String
  systemPrompt : String := ""
  resources : ResourceConfig := {}
  scaling : ScalingConfig := {}
  dependsOn : List String := []
  environment : List (String × String) := []
deriving DecidableEq, Repr

/-- pkg/config/types.go `AgentClusterSpec`. -/
structure AgentClusterSpec where
  resourcePolicy : CResourcePolicy := {}
  agents : List ConfigAgent
deriving DecidableEq, Repr

/-- pkg/config/types.go `AgentCluster`. -/
structure AgentCluster where
  apiVersion : String := ""
  kind : String := ""
  metadata : CMetadata
  spec : AgentClusterSpec
deriving DecidableEq, Repr

/-- pkg/config/loader.go `isValidProvider` (lines 174-181). -/
def isValidProvider (provider : String) : Bool :=
  provider = "anthropic" ∨ provider = "openai" ∨ provider = "gemini"

/-- The per-agent loop of validateAgentCluster (loader.go lines 141-169):
`seen` is the agentNames set accumulated so far; the current agent's name is
added to it before its provider/model/dependency checks, as in the source. -/
def validateAgents : List ConfigAgent → List String → Except String Unit
  | [], _ => .ok ()
  | a :: rest, seen =>
    if a.name = "" then .error "agent: name is required"
    else if seen.contains a.name then .error ("duplicate agent name: " ++ a.name)
    else if a.provider = "" then .error ("agent " ++ a.name ++ ": provider is required")
    else if a.model = "" then .error ("agent " ++ a.name ++ ": model is required")
    else if ¬ isValidProvider a.provider then
      .error ("agent " ++ a.name ++ ": unsupported provider " ++ a.provider)
    else
      match a.dependsOn.find? fun dep =>
          if (a.name :: seen).contains dep = false ∧ dep ≠ a.name then true else false with
      | some dep => .error ("agent " ++ a.name ++ ": dependency " ++ dep ++ " not found")
      | none => validateAgents rest (a.name :: seen)

/-- loader.go lines 125-127: fill the kind default. -/
def fillKindDefault (c1 : AgentCluster) : AgentCluster :=
  if c1.kind = "" then { c1 with kind := "AgentCluster" } else c1

/-- loader.go lines 121-127: fill the apiVersion and kind defaults. -/
def fillHeaderDefaults (cluster : AgentCluster) : AgentCluster :=
  fillKindDefault (if cluster.apiVersion = "" then
    { cluster with apiVersion := "goagents.dev/v1" } else cluster)

/-- loader.go lines 133-135: fill the namespace default. -/
def fillNamespaceDefault (cluster : AgentCluster) : AgentCluster :=
  if cluster.metadata.nameSpace = "" then
    { cluster with metadata := { cluster.metadata with nameSpace := "default" } }
  else cluster

/-- pkg/config/loader.go `validateAgentCluster` (lines 120-172): fills
defaults, requires a cluster name and at least one agent, then validates every
agent declaration. Returns the cluster with defaults applied. -/
def validateAgentCluster (cluster : AgentCluster) : Except String AgentCluster :=
  if (fillHeaderDefaults cluster).metadata.name = "" then .error "cluster name is required"
  else if (fillNamespaceDefault (fillHeaderDefaults cluster)).spec.agents.length = 0 then
    .error "at least one agent is required"
  else
    match validateAgents (fillNamespaceDefault (fillHeaderDefaults cluster)).spec.agents [] with
    | .error e => .error e
    | .ok _ => .ok (fillNamespaceDefault (fillHeaderDefaults cluster))

/-- pkg/runtime/engine.go `ClusterStatus`. -/
inductive ClusterStatus where
  | pending
  | running
  | stopped
  | failed
deriving DecidableEq, Repr

/-- pkg/runtime/engine.go `Cluster`. The Agents map holds agent-name → agent-id;
the Agent values themselves live in the lifecycle Manager's registry (in Go the
map holds pointers into that same registry). -/
structure Cluster where
  name : String
  config : AgentCluster
  agents : List (String × String) := []
  status : ClusterStatus
  createdAt : Nat
  updatedAt : Nat
deriving DecidableEq, Repr

/-- pkg/runtime/engine.go `Metrics` (system-wide counters). -/
structure Metrics where
  clustersTotal : Int := 0
  agentsTotal : Int := 0
  requestsTotal : Int := 0
  requestsSucceeded : Int := 0
  requestsFailed : Int := 0
  averageResponseTime : Int := 0
deriving DecidableEq, Repr

/-- pkg/runtime/engine.go `Engine`. `providerNames` is the provider registry's
key set (providers.Manager); the provider behaviour itself is the chat oracle
passed to processRequest. -/
structure Engine where
  agentManager : Manager := {}
  providerNames : List String := []
  clusters : List (String × Cluster) := []
  metrics : Metrics := {}
deriving DecidableEq, Repr

/-- engine.go `NewEngine`: empty registries, zero metrics; the registered
provider names are those configured (initializeProviders). -/
def Engine.new (providerNames : List String) : Engine :=
  { agentManager := {}, providerNames := providerNames, clusters := [], metrics := {} }

/-- In-place update of one cluster registry entry. -/
def Engine.setCluster (e : Engine) (name : String) (f : Cluster → Cluster) : Engine :=
  { e with clusters := updateEntry e.clusters name f }

/-- engine.go `DeployCluster` (lines 113-140): duplicate name errors;
otherwise the cluster is registered pending and clustersTotal is incremented.
The background startCluster goroutine is the separate step below. -/
def Engine.deployCluster (e : Engine) (clusterConfig : AgentCluster) (now : Nat) :
    Except String Engine :=
  match lookupKey e.clusters clusterConfig.metadata.name with
  | some _ => .error ("cluster " ++ clusterConfig.metadata.name ++ " already exists")
  | none =>
    .ok { e with
      clusters := (clusterConfig.metadata.name,
        { name := clusterConfig.metadata.name, config := clusterConfig, agents := [],
          status := .pending, createdAt := now, updatedAt := now }) :: e.clusters,
      metrics := { e.metrics with clustersTotal := e.metrics.clustersTotal + 1 } }

/-- engine.go `createAgent` (lines 164-225), minus tool registration: builds
the runtime AgentConfig from the manifest entry, creates the agent through the
lifecycle Manager (the id seed is the creation instant), sets its name and
owning cluster, records it in the cluster's agent map, and increments
agentsTotal. -/
def Engine.createAgent (e : Engine) (clusterName : String) (agentConfig : ConfigAgent)
    (nowNano : Nat) : Engine :=
  let agentCfg : AgentConfig :=
    { provider := agentConfig.provider, model := agentConfig.model,
      systemPrompt := agentConfig.systemPrompt, environment := agentConfig.environment }
  let created := e.agentManager.createAgent agentCfg nowNano
  let mgr := created.1.setAgent created.2.id fun a =>
    { a with name := agentConfig.name, clusterName := clusterName }
  let e1 := { e with agentManager := mgr }
  let e2 := e1.setCluster clusterName fun c =>
    { c with agents := (agentConfig.name, created.2.id) :: c.agents }
  { e2 with metrics := { e2.metrics with agentsTotal := e2.metrics.agentsTotal + 1 } }

/-- The fan-out loop of startCluster (engine.go lines 150-159): creates the
declared agents in order; successive id seeds model successive clock reads. -/
def Engine.createAgents : Engine → String → List ConfigAgent → Nat → Engine
  | e, _, [], _ => e
  | e, clusterName, cfg :: rest, seed =>
    Engine.createAgents (e.createAgent clusterName cfg seed) clusterName rest (seed + 1)

/-- engine.go `startCluster` (lines 142-162), the goroutine spawned by
DeployCluster: marks the cluster running, then creates its agents. The Go
goroutine holds the cluster pointer; here it is found by name (a deleted
cluster makes the step a no-op). -/
def Engine.startCluster (e : Engine) (clusterName : String) (now : Nat) : Engine :=
  match lookupKey e.clusters clusterName with
  | none => e
  | some c =>
    let e1 := e.setCluster clusterName fun cl =>
      { cl with status := .running, updatedAt := now }
    Engine.createAgents e1 clusterName c.config.spec.agents now

/-- The agent-stopping loop of StopCluster (engine.go lines 358-365): stop
each contained agent, ignoring individual failures. -/
def stopAgents (mgr : Manager) (ids : List String) (now : Nat) : Manager :=
  match ids with
  | [] => mgr
  | id :: rest =>
    stopAgents (match mgr.stopAgent id now with | .ok m1 => m1 | .error _ => mgr) rest now

/-- engine.go `StopCluster` (lines 345-372): unknown cluster errors; an
already-stopped cluster is a no-op success; otherwise every contained agent is
stopped best-effort and the cluster status becomes stopped. -/
def Engine.stopCluster (e : Engine) (name : String) (now : Nat) : Except String Engine :=
  match lookupKey e.clusters name with
  | none => .error ("cluster not found: " ++ name)
  | some c =>
    if c.status = .stopped then .ok e
    else
      .ok (({ e with
          agentManager := stopAgents e.agentManager (c.agents.map Prod.snd) now
        }).setCluster name fun cl => { cl with status := .stopped, updatedAt := now })

/-- The agent-deleting loop of DeleteCluster (engine.go lines 387-394):
delete each contained agent, ignoring individual failures. -/
def deleteAgents (mgr : Manager) (ids : List String) : Manager :=
  match ids with
  | [] => mgr
  | id :: rest =>
    deleteAgents (match mgr.deleteAgent id with | .ok r => r.1 | .error _ => mgr) rest

/-- The registry-removal part of DeleteCluster (engine.go lines 379-400),
running after the StopCluster call succeeded: deletes every contained agent
best-effort, removes the cluster, and decrements clustersTotal. -/
def Engine.deleteClusterAfterStop (e1 : Engine) (name : String) : Except String Engine :=
  match lookupKey e1.clusters name with
  | none => .error ("cluster not found: " ++ name)
  | some c =>
    .ok { e1 with
      agentManager := deleteAgents e1.agentManager (c.agents.map Prod.snd),
      clusters := e1.clusters.filter fun p => if p.1 = name then false else true,
      metrics := { e1.metrics with clustersTotal := e1.metrics.clustersTotal - 1 } }

/-- engine.go `DeleteCluster` (lines 374-401): stops the cluster first
(propagating its error), then removes it and its agents. -/
def Engine.deleteCluster (e : Engine) (name : String) (now : Nat) : Except String Engine :=
  match e.stopCluster name now with
  | .error err => .error err
  | .ok e1 => e1.deleteClusterAfterStop name

/-- The provider-request construction of Engine.ProcessRequest (engine.go
lines 252-272): copy the request messages, prepending the agent's system
prompt as a synthetic system message when present. -/
def buildProviderRequest (targetAgent : Agent) (req : Request) : ChatRequest :=
  let msgs := req.messages.map fun msg => ChatMessage.mk msg.role msg.content
  let msgs := if targetAgent.config.systemPrompt ≠ "" then
      ChatMessage.mk "system" targetAgent.config.systemPrompt :: msgs
    else msgs
  { model := targetAgent.config.model, messages := msgs }

/-- engine.go `Engine.ProcessRequest` (lines 227-315): resolve the cluster,
the agent within it, and the provider under the agent's configured provider
name (each failure is an engine error with nothing mutated); then increment
requestsTotal, invoke the provider, and either convert a provider failure
into a soft-failure Response (requestsFailed++) or build the success Response
(requestsSucceeded++, damped averageResponseTime, agent lastActivity refresh).
`chat` is the resolved provider's Chat; `duration` the measured elapsed time.
The returned Bool reports whether provider.Chat was invoked. -/
def Engine.processRequest (e : Engine) (clusterName agentName : String) (req : Request)
    (chat : ChatRequest → Except String ChatResponse) (duration : Int) (now : Nat) :
    Engine × Except String Response × Bool :=
  match lookupKey e.clusters clusterName with
  | none => (e, .error ("cluster not found: " ++ clusterName), false)
  | some cluster =>
    match lookupKey cluster.agents agentName with
    | none =>
      (e, .error ("agent " ++ agentName ++ " not found in cluster " ++ clusterName), false)
    | some agentID =>
      match e.agentManager.lookupAgent agentID with
      | none =>
        (e, .error ("agent " ++ agentName ++ " not found in cluster " ++ clusterName), false)
      | some targetAgent =>
        if e.providerNames.contains targetAgent.config.provider then
          let e1 := { e with metrics :=
            { e.metrics with requestsTotal := e.metrics.requestsTotal + 1 } }
          match chat (buildProviderRequest targetAgent req) with
          | .error err =>
            ({ e1 with metrics :=
                { e1.metrics with requestsFailed := e1.metrics.requestsFailed + 1 } },
             .ok { id := req.id, error := "provider error: " ++ err }, true)
          | .ok providerResp =>
            let e2 := { e1 with metrics :=
              { e1.metrics with
                  requestsSucceeded := e1.metrics.requestsSucceeded + 1,
                  averageResponseTime := (e1.metrics.averageResponseTime + duration) / 2 } }
            let e3 := { e2 with agentManager :=
              e2.agentManager.setAgent agentID fun a => { a with lastActivity := now } }
            (e3,
             .ok { id := req.id, content := providerResp.content,
                   metadata := some
                     { model := providerResp.model,
                       provider := targetAgent.config.provider,
                       usage := providerResp.usage } },
             true)
        else
          (e, .error ("provider " ++ targetAgent.config.provider ++ " not available"), false)

/-- One engine public operation together with the nondeterministic inputs it
consumes (clock reads, the resolved provider's behaviour, measured latency). -/
inductive EngineOp where
  | deployCluster (spec : AgentCluster) (now : Nat)
  | startCluster (name : String) (now : Nat)
  | stopCluster (name : String) (now : Nat)
  | deleteCluster (name : String) (now : Nat)
  | processRequest (clusterName agentName : String) (req : Request)
      (chat : ChatRequest → Except String ChatResponse) (duration : Int) (now : Nat)

/-- The engine-state effect of one operation (error results leave the engine
unchanged, as in the source). -/
def Engine.step (e : Engine) : EngineOp → Engine
  | .deployCluster spec now =>
    match e.deployCluster spec now with | .ok e1 => e1 | .error _ => e
  | .startCluster name now => e.startCluster name now
  | .stopCluster name now =>
    match e.stopCluster name now with | .ok e1 => e1 | .error _ => e
  | .deleteCluster name now =>
    match e.deleteCluster name now with | .ok e1 => e1 | .error _ => e
  | .processRequest cn an req chat dur now => (e.processRequest cn an req chat dur now).1

/-! Concrete sample states used by witnesses and counterexamples. -/

/-- A valid runtime agent configuration with a 1ns idle timeout. -/
def sampleAgentConfig : AgentConfig :=
  { provider := "anthropic", model := "m", resources := { timeout := 1 } }

def agentId1 : String := generateAgentID 1

/-- Registry with one freshly created (pending) agent. -/
def mgrA : Manager := (Manager.createAgent {} sampleAgentConfig 1).1

/-- The agent after StartAgent (status starting, supervised). -/
def mgrB : Manager :=
  match mgrA.startAgent agentId1 2 with | .ok m => m | .error _ => mgrA

/-- The agent after the supervision goroutine entered (status running). -/
def mgrC : Manager := mgrB.runAgentEnter agentId1 2

/-- The agent after its idle timer fired past the timeout (status idle). -/
def mgrD : Manager := mgrC.idleTimerFire agentId1 10

/-- A valid manifest agent declaration. -/
def sampleConfigAgent : ConfigAgent := { name := "a", provider := "anthropic", model := "m" }

/-- A valid cluster manifest with one agent. -/
def sampleCluster : AgentCluster :=
  { apiVersion := "goagents.dev/v1", kind := "AgentCluster",
    metadata := { name := "c", nameSpace := "default" },
    spec := { agents := [sampleConfigAgent] } }

def sampleReq : Request := { id := "r1" }

/-- A provider whose Chat always succeeds. -/
def chatOK : ChatRequest → Except String ChatResponse :=
  fun _ => .ok { content := "hi", model := "m" }

/-- A provider whose Chat always fails. -/
def chatErr : ChatRequest → Except String ChatResponse :=
  fun _ => .error "boom"

/-- Engine with the anthropic provider registered. -/
def engA : Engine := Engine.new ["anthropic"]

/-- engA after deploying the sample cluster. -/
def engB : Engine := engA.step (.deployCluster sampleCluster 1)

/-- engB after the background startCluster fan-out (one pending agent,
id "agent-2"). -/
def engC : Engine := engB.step (.startCluster "c" 2)

/-- Same deployment against an engine with no providers registered. -/
def engNoProv : Engine :=
  ((Engine.new []).step (.deployCluster sampleCluster 1)).step (.startCluster "c" 2)

/-- A placeholder agent for Option.getD; never reachable on the paths used. -/
def dummyAgent : Agent :=
  { id := "", name := "", config := { provider := "", model := "" },
    status := .failed, createdAt := 0, updatedAt := 0, lastActivity := 0 }

/-- A placeholder cluster for Option.getD; never reachable on the paths used. -/
def dummyCluster : Cluster :=
  { name := "", config := sampleCluster, status := .failed, createdAt := 0, updatedAt := 0 }

def mgrAAgent : Agent := (mgrA.lookupAgent agentId1).getD dummyAgent

def mgrCAgent : Agent := (mgrC.lookupAgent agentId1).getD dummyAgent

def mgrDAgent : Agent := (mgrD.lookupAgent agentId1).getD dummyAgent

def engCCluster : Cluster := (lookupKey engC.clusters "c").getD dummyCluster

def engCAgent : Agent := (engC.agentManager.lookupAgent (generateAgentID 2)).getD dummyAgent

def engNPCluster : Cluster := (lookupKey engNoProv.clusters "c").getD dummyCluster

def engNPAgent : Agent :=
  (engNoProv.agentManager.lookupAgent (generateAgentID 2)).getD dummyAgent

/-! General lemmas about the association-list registries. -/

lemma lookupKey_updateEntry {α : Type} (l : List (String × α)) (k : String) (f : α → α) :
    lookupKey (updateEntry l k f) k = (lookupKey l k).map f := by
  induction l with
  | nil => rfl
  | cons p rest ih =>
    obtain ⟨k1, v⟩ := p
    unfold updateEntry
    by_cases h : k1 = k
    · simp [h, lookupKey]
    · simp [h, lookupKey, ih]

lemma lookupKey_filter_out {α : Type} (l : List (String × α)) (k : String) :
    lookupKey (l.filter fun p => if p.1 = k then false else true) k = none := by
  induction l with
  | nil => rfl
  | cons p rest ih =>
    by_cases h : p.1 = k
    · simpa [List.filter, h] using ih
    · simpa [List.filter, h, lookupKey] using ih

lemma Manager.lookupAgent_setAgent (m : Manager) (id : String) (f : Agent → Agent) :
    (m.setAgent id f).lookupAgent id = (m.lookupAgent id).map f :=
  lookupKey_updateEntry m.agents id f

lemma Manager.lookupAgent_removeAgent (m : Manager) (id : String) :
    (m.removeAgent id).lookupAgent id = none :=
  lookupKey_filter_out m.agents id

/-! Theorems settling the claims. -/

/-- C2: the claim fails on the code. This concrete agent has status idle, yet
the Lifecycle Manager's ProcessRequest returns an error (it tries to start the
agent and StartAgent rejects the idle state) instead of succeeding. -/
theorem c2_counterexample :
    (mgrD.lookupAgent agentId1).map Agent.status = some Status.idle ∧
    mgrD.processRequest agentId1 sampleReq 11 =
      .error "failed to start agent: agent agent-1 is in invalid state for starting: idle" := by
  decide

/-- C2 (amended): for every agent whose status is idle, the Lifecycle
Manager's processRequest fails with a failed-to-start error: it routes every
non-running agent through start, and start rejects idle, so idle is a blocking
state for request processing, not a servable one. -/
theorem c2_idle_blocks_processRequest
    (m : Manager) (id : String) (a : Agent) (req : Request) (now : Nat)
    (h : m.lookupAgent id = some a) (hidle : a.status = .idle) :
    m.processRequest id req now =
      .error ("failed to start agent: " ++
        ("agent " ++ id ++ " is in invalid state for starting: " ++ Status.str .idle)) := by
  unfold Manager.processRequest Manager.startAgent
  rw [h]
  simp [hidle, Status.str]

/-- C2 witness: the amended statement at the concrete idle agent. -/
theorem c2_witness :
    mgrD.processRequest agentId1 sampleReq 11 =
      .error ("failed to start agent: " ++
        ("agent " ++ agentId1 ++ " is in invalid state for starting: " ++ Status.str .idle)) :=
  c2_idle_blocks_processRequest mgrD agentId1 mgrDAgent sampleReq 11 (by decide) (by decide)

/-- C3: the claim fails on the code. This concrete agent is running, yet
StartAgent returns an invalid-state error instead of a no-op success. -/
theorem c3_counterexample :
    (mgrC.lookupAgent agentId1).map Agent.status = some Status.running ∧
    mgrC.startAgent agentId1 5 =
      .error "agent agent-1 is in invalid state for starting: running" := by
  decide

/-- C3 (amended): start succeeds only from pending or stopped (setting status
starting and spawning supervision); from every other status — including
running and idle — it fails with an invalid-state error. -/
theorem c3_start_legal_only_from_pending_or_stopped
    (m : Manager) (id : String) (a : Agent) (now : Nat)
    (h : m.lookupAgent id = some a) :
    ((a.status = .pending ∨ a.status = .stopped) →
      m.startAgent id now = .ok (m.setAgent id fun x =>
        { x with status := .starting, updatedAt := now, supervised := true })) ∧
    (a.status ≠ .pending → a.status ≠ .stopped →
      m.startAgent id now =
        .error ("agent " ++ id ++ " is in invalid state for starting: " ++ a.status.str)) := by
  unfold Manager.startAgent
  rw [h]
  constructor
  · rintro (h1 | h1) <;> simp [h1]
  · intro h1 h2
    simp [h1, h2]

/-- C3 witness: the amended statement at a concrete pending agent (start
succeeds) and at a concrete running agent (start fails). -/
theorem c3_witness :
    mgrA.startAgent agentId1 2 = .ok (mgrA.setAgent agentId1 fun x =>
      { x with status := .starting, updatedAt := 2, supervised := true }) ∧
    mgrC.startAgent agentId1 5 =
      .error ("agent " ++ agentId1 ++ " is in invalid state for starting: "
        ++ Status.str .running) := by
  constructor
  · exact (c3_start_legal_only_from_pending_or_stopped mgrA agentId1 mgrAAgent 2
      (by decide)).1 (Or.inl (by decide))
  · exact (c3_start_legal_only_from_pending_or_stopped mgrC agentId1 mgrCAgent 5
      (by decide)).2 (by decide) (by decide)

/-- C7: stop is idempotent for every registered agent (two successive calls
never error), and from any status where stop is not already a no-op, once the
supervision goroutine observes the cancellation the agent's status is
stopped. -/
theorem c7_stop_idempotent_supervisor_finalizes
    (m : Manager) (id : String) (a : Agent) (n1 n2 n3 : Nat)
    (h : m.lookupAgent id = some a) :
    (∃ m1, m.stopAgent id n1 = .ok m1 ∧ ∃ m2, m1.stopAgent id n2 = .ok m2) ∧
    (a.status ≠ .stopped → a.status ≠ .stopping → a.supervised = true →
      ∀ m1, m.stopAgent id n1 = .ok m1 →
        ((m1.supervisorFinalize id n3).lookupAgent id).map Agent.status
          = some Status.stopped) := by
  have hstop : ∀ n : Nat, (a.status = .stopped ∨ a.status = .stopping) →
      m.stopAgent id n = .ok m := by
    intro n hs
    unfold Manager.stopAgent
    rw [h]
    simp [hs]
  have hstop2 : ∀ n : Nat, ¬(a.status = .stopped ∨ a.status = .stopping) →
      m.stopAgent id n = .ok (m.setAgent id fun x =>
        { x with status := .stopping, updatedAt := n, ctxCancelled := true }) := by
    intro n hs
    unfold Manager.stopAgent
    rw [h]
    simp [hs]
  have hl : (m.setAgent id fun x =>
      { x with status := .stopping, updatedAt := n1, ctxCancelled := true }).lookupAgent id
      = some { a with status := .stopping, updatedAt := n1, ctxCancelled := true } := by
    rw [Manager.lookupAgent_setAgent, h]
    rfl
  constructor
  · by_cases hs : a.status = .stopped ∨ a.status = .stopping
    · exact ⟨m, hstop n1 hs, m, hstop n2 hs⟩
    · refine ⟨m.setAgent id fun x =>
        { x with status := .stopping, updatedAt := n1, ctxCancelled := true },
        hstop2 n1 hs, ?_⟩
      refine ⟨m.setAgent id fun x =>
        { x with status := .stopping, updatedAt := n1, ctxCancelled := true }, ?_⟩
      unfold Manager.stopAgent
      rw [hl]
      simp
  · intro h1 h2 h3 m1 hm1
    have hs : ¬(a.status = .stopped ∨ a.status = .stopping) := by
      rintro (hx | hx) <;> [exact h1 hx; exact h2 hx]
    rw [hstop2 n1 hs] at hm1
    cases hm1
    unfold Manager.supervisorFinalize
    rw [hl]
    simp [h3, Manager.lookupAgent_setAgent, hl]

/-- C7 witness: the statement at the concrete running, supervised agent. -/
theorem c7_witness :
    (∃ m1, mgrC.stopAgent agentId1 20 = .ok m1 ∧
       ∃ m2, m1.stopAgent agentId1 21 = .ok m2) ∧
    ((match mgrC.stopAgent agentId1 20 with
        | .ok m1 => ((m1.supervisorFinalize agentId1 22).lookupAgent agentId1).map Agent.status
        | .error _ => none)
      = some Status.stopped) := by
  have h := c7_stop_idempotent_supervisor_finalizes mgrC agentId1 mgrCAgent 20 21 22 (by decide)
  refine ⟨h.1, ?_⟩
  have h2 := h.2 (by decide) (by decide) (by decide)
  cases hm : mgrC.stopAgent agentId1 20 with
  | error e =>
    rcases h.1 with ⟨m1, hm1, _⟩
    rw [hm] at hm1
    cases hm1
  | ok m1 => exact h2 m1 hm

/-- C10: DeleteAgent removes a registered agent from the registry whatever its
status, and invokes the cancellation exactly when the status is running; in
particular deleting a starting or idle agent does not cancel its supervision
context. -/
theorem c10_delete_cancels_only_running
    (m : Manager) (id : String) (a : Agent)
    (h : m.lookupAgent id = some a) :
    m.deleteAgent id =
      .ok (m.removeAgent id, if a.status = Status.running then true else false) ∧
    (m.removeAgent id).lookupAgent id = none ∧
    ((a.status = .starting ∨ a.status = .idle) →
      m.deleteAgent id = .ok (m.removeAgent id, false)) := by
  refine ⟨?_, Manager.lookupAgent_removeAgent m id, ?_⟩
  · unfold Manager.deleteAgent
    rw [h]
  · rintro (h1 | h1) <;> (unfold Manager.deleteAgent; rw [h]; simp [h1])

/-- C10 witness: the statement at the concrete idle agent. -/
theorem c10_witness :
    mgrD.deleteAgent agentId1 = .ok (mgrD.removeAgent agentId1, false) ∧
    (mgrD.removeAgent agentId1).lookupAgent agentId1 = none :=
  ⟨(c10_delete_cancels_only_running mgrD agentId1 mgrDAgent (by decide)).2.2
      (Or.inr (by decide)),
   (c10_delete_cancels_only_running mgrD agentId1 mgrDAgent (by decide)).2.1⟩

/-- An invalid runtime agent configuration: provider and model both missing. -/
def badConfig : AgentConfig := { provider := "", model := "" }

/-- C8: the claim fails on the code. CreateAgent accepts a configuration with
missing provider and model: the agent is created (status pending) and
registered, with no ValidationError — CreateAgent performs no validation. -/
theorem c8_counterexample :
    badConfig.provider = "" ∧ badConfig.model = "" ∧
    (Manager.createAgent {} badConfig 7).2.status = Status.pending ∧
    (Manager.createAgent {} badConfig 7).1.lookupAgent (generateAgentID 7)
      = some (Manager.createAgent {} badConfig 7).2 := by
  decide

/-- Every agent declaration accepted by the validation loop has a non-empty
provider and model. -/
lemma validateAgents_ok : ∀ (l : List ConfigAgent) (seen : List String),
    validateAgents l seen = .ok () → ∀ a ∈ l, a.provider ≠ "" ∧ a.model ≠ "" := by
  intro l
  induction l with
  | nil => simp
  | cons a rest ih =>
    intro seen h
    unfold validateAgents at h
    split at h
    · exact absurd h (by simp)
    split at h
    · exact absurd h (by simp)
    split at h
    · exact absurd h (by simp)
    split at h
    · exact absurd h (by simp)
    split at h
    · exact absurd h (by simp)
    split at h
    · exact absurd h (by simp)
    intro b hb
    rcases List.mem_cons.mp hb with hb | hb
    · subst hb
      exact ⟨by assumption, by assumption⟩
    · exact ih _ h b hb

lemma fillKindDefault_spec (c : AgentCluster) :
    (fillKindDefault c).spec = c.spec := by
  unfold fillKindDefault
  split <;> rfl

lemma fillHeaderDefaults_spec (c : AgentCluster) :
    (fillHeaderDefaults c).spec = c.spec := by
  unfold fillHeaderDefaults
  rw [fillKindDefault_spec]
  split <;> rfl

lemma fillNamespaceDefault_spec (c : AgentCluster) :
    (fillNamespaceDefault c).spec = c.spec := by
  unfold fillNamespaceDefault
  split <;> rfl

/-- validateAgentCluster leaves the declared agent list unchanged and only
accepts clusters whose validation loop succeeds. -/
lemma validateAgentCluster_ok (c c1 : AgentCluster)
    (h : validateAgentCluster c = .ok c1) :
    c1.spec.agents = c.spec.agents ∧ validateAgents c.spec.agents [] = .ok () := by
  unfold validateAgentCluster at h
  split at h
  · exact absurd h (by simp)
  split at h
  · exact absurd h (by simp)
  rw [fillNamespaceDefault_spec, fillHeaderDefaults_spec] at h
  cases hv : validateAgents c.spec.agents [] with
  | error e =>
    rw [hv] at h
    exact absurd h (by simp)
  | ok u =>
    cases u
    rw [hv] at h
    cases h
    exact ⟨by rw [fillNamespaceDefault_spec, fillHeaderDefaults_spec], rfl⟩

/-- C8 (amended): CreateAgent allocates a fresh id (derived from the creation
instant), sets status pending, records the created/updated/lastActivity
timestamps, registers the agent, and never fails — even on a config with
missing provider or model. Missing provider/model is instead rejected by the
config loader: validateAgentCluster never accepts a cluster containing such an
agent declaration. -/
theorem c8_amended_create_total_validation_in_loader :
    (∀ (m : Manager) (config : AgentConfig) (now : Nat),
      (m.createAgent config now).2.status = Status.pending ∧
      (m.createAgent config now).2.id = generateAgentID now ∧
      (m.createAgent config now).2.createdAt = now ∧
      (m.createAgent config now).2.updatedAt = now ∧
      (m.createAgent config now).2.lastActivity = now ∧
      (m.createAgent config now).1.lookupAgent (generateAgentID now)
        = some (m.createAgent config now).2) ∧
    (∀ (c c1 : AgentCluster), validateAgentCluster c = .ok c1 →
      ∀ a ∈ c.spec.agents, a.provider ≠ "" ∧ a.model ≠ "") := by
  constructor
  · intro m config now
    refine ⟨rfl, rfl, rfl, rfl, rfl, ?_⟩
    simp [Manager.createAgent, Manager.lookupAgent, lookupKey]
  · intro c c1 h a ha
    exact validateAgents_ok c.spec.agents [] (validateAgentCluster_ok c c1 h).2 a ha

/-- C8 witness: the amended statement at a concrete creation and at the
concrete valid sample manifest. -/
theorem c8_witness :
    (Manager.createAgent {} sampleAgentConfig 7).2.status = Status.pending ∧
    sampleConfigAgent.provider ≠ "" ∧ sampleConfigAgent.model ≠ "" := by
  refine ⟨(c8_amended_create_total_validation_in_loader.1 {} sampleAgentConfig 7).1, ?_, ?_⟩
  · exact (c8_amended_create_total_validation_in_loader.2 sampleCluster sampleCluster
      (by decide) sampleConfigAgent (by decide)).1
  · exact (c8_amended_create_total_validation_in_loader.2 sampleCluster sampleCluster
      (by decide) sampleConfigAgent (by decide)).2

/-- C1: the claim fails on the code. At this deployed engine the target agent
has status pending — not running — yet Engine.ProcessRequest invokes the
provider's chat call (the Bool component records the invocation). -/
theorem c1_counterexample :
    (engC.agentManager.lookupAgent (generateAgentID 2)).map Agent.status
      = some Status.pending ∧
    (engC.processRequest "c" "a" sampleReq chatOK 0 3).2.2 = true := by
  decide

/-- C1 (amended): whenever Engine.ProcessRequest resolves the cluster, the
agent within it, and the provider, it invokes the provider's chat call
regardless of the agent's lifecycle status: it never routes the request
through the Lifecycle Manager, and the target agent's status is left exactly
as it was. -/
theorem c1_amended_provider_invoked_regardless_of_status
    (e : Engine) (cn an agentID : String) (cluster : Cluster) (a : Agent)
    (req : Request) (chat : ChatRequest → Except String ChatResponse)
    (dur : Int) (now : Nat)
    (hc : lookupKey e.clusters cn = some cluster)
    (ha : lookupKey cluster.agents an = some agentID)
    (hm : e.agentManager.lookupAgent agentID = some a)
    (hp : a.config.provider ∈ e.providerNames) :
    (e.processRequest cn an req chat dur now).2.2 = true ∧
    ((e.processRequest cn an req chat dur now).1.agentManager.lookupAgent agentID).map
      Agent.status = some a.status := by
  unfold Engine.processRequest
  cases hchat : chat (buildProviderRequest a req) with
  | error msg => simp [hc, ha, hm, hp, hchat]
  | ok pr => simp [hc, ha, hm, hp, hchat, Manager.lookupAgent_setAgent]

/-- C1 witness: the amended statement at the concrete engine whose only agent
is pending. -/
theorem c1_witness :
    (engC.processRequest "c" "a" sampleReq chatOK 0 3).2.2 = true ∧
    ((engC.processRequest "c" "a" sampleReq chatOK 0 3).1.agentManager.lookupAgent
      (generateAgentID 2)).map Agent.status = some engCAgent.status :=
  c1_amended_provider_invoked_regardless_of_status engC "c" "a" (generateAgentID 2)
    engCCluster engCAgent sampleReq chatOK 0 3 (by decide) (by decide) (by decide) (by decide)

/-- C4: when the resolved provider's chat call fails, Engine.ProcessRequest
returns a nil engine error together with a Response carrying only the request
id and a non-empty error field (content empty, metadata absent), and
requestsFailed is incremented (after the requestsTotal increment). -/
theorem c4_provider_failure_soft_response
    (e : Engine) (cn an agentID : String) (cluster : Cluster) (a : Agent)
    (req : Request) (chat : ChatRequest → Except String ChatResponse)
    (dur : Int) (now : Nat) (msg : String)
    (hc : lookupKey e.clusters cn = some cluster)
    (ha : lookupKey cluster.agents an = some agentID)
    (hm : e.agentManager.lookupAgent agentID = some a)
    (hp : a.config.provider ∈ e.providerNames)
    (hchat : chat (buildProviderRequest a req) = .error msg) :
    e.processRequest cn an req chat dur now =
      ({ e with metrics := { e.metrics with
            requestsTotal := e.metrics.requestsTotal + 1,
            requestsFailed := e.metrics.requestsFailed + 1 } },
       .ok { id := req.id, content := "", error := "provider error: " ++ msg,
             metadata := none },
       true) ∧
    "provider error: " ++ msg ≠ "" := by
  constructor
  · unfold Engine.processRequest
    simp [hc, ha, hm, hp, hchat]
  · intro hempty
    have hlen := congrArg String.length hempty
    rw [String.length_append] at hlen
    have h16 : "provider error: ".length = 16 := by decide
    have h0 : "".length = 0 := by decide
    omega

/-- C4 witness: the soft-failure statement at the concrete engine and the
always-failing provider. -/
theorem c4_witness :
    engC.processRequest "c" "a" sampleReq chatErr 0 3 =
      ({ engC with metrics := { engC.metrics with
            requestsTotal := engC.metrics.requestsTotal + 1,
            requestsFailed := engC.metrics.requestsFailed + 1 } },
       .ok { id := sampleReq.id, content := "", error := "provider error: " ++ "boom",
             metadata := none },
       true) ∧
    "provider error: " ++ "boom" ≠ "" :=
  c4_provider_failure_soft_response engC "c" "a" (generateAgentID 2)
    engCCluster engCAgent sampleReq chatErr 0 3 "boom"
    (by decide) (by decide) (by decide) (by decide) (by decide)

/-- C9: when the target agent's configured provider name is not registered,
Engine.ProcessRequest returns a provider-not-available error, the engine state
is entirely unchanged (in particular requestsTotal and the agent's status),
and the provider is never invoked. -/
theorem c9_provider_unavailable
    (e : Engine) (cn an agentID : String) (cluster : Cluster) (a : Agent)
    (req : Request) (chat : ChatRequest → Except String ChatResponse)
    (dur : Int) (now : Nat)
    (hc : lookupKey e.clusters cn = some cluster)
    (ha : lookupKey cluster.agents an = some agentID)
    (hm : e.agentManager.lookupAgent agentID = some a)
    (hp : a.config.provider ∉ e.providerNames) :
    e.processRequest cn an req chat dur now =
      (e, .error ("provider " ++ a.config.provider ++ " not available"), false) ∧
    (e.processRequest cn an req chat dur now).1.metrics.requestsTotal
      = e.metrics.requestsTotal ∧
    ((e.processRequest cn an req chat dur now).1.agentManager.lookupAgent agentID).map
      Agent.status = some a.status := by
  have hmain : e.processRequest cn an req chat dur now =
      (e, .error ("provider " ++ a.config.provider ++ " not available"), false) := by
    unfold Engine.processRequest
    simp [hc, ha, hm, hp]
  refine ⟨hmain, ?_, ?_⟩
  · rw [hmain]
  · rw [hmain, hm]
    rfl

/-- C9 witness: the statement at the concrete engine with no registered
providers. -/
theorem c9_witness :
    engNoProv.processRequest "c" "a" sampleReq chatOK 0 3 =
      (engNoProv, .error ("provider " ++ engNPAgent.config.provider ++ " not available"),
       false) ∧
    (engNoProv.processRequest "c" "a" sampleReq chatOK 0 3).1.metrics.requestsTotal
      = engNoProv.metrics.requestsTotal :=
  ⟨(c9_provider_unavailable engNoProv "c" "a" (generateAgentID 2) engNPCluster engNPAgent
      sampleReq chatOK 0 3 (by decide) (by decide) (by decide) (by decide)).1,
   (c9_provider_unavailable engNoProv "c" "a" (generateAgentID 2) engNPCluster engNPAgent
      sampleReq chatOK 0 3 (by decide) (by decide) (by decide) (by decide)).2.1⟩

/-! Metric-evolution lemmas for the engine operations. -/

lemma Engine.createAgent_metrics (e : Engine) (cn : String) (cfg : ConfigAgent)
    (seed : Nat) :
    (e.createAgent cn cfg seed).metrics
      = { e.metrics with agentsTotal := e.metrics.agentsTotal + 1 } := rfl

lemma Engine.createAgents_metrics :
    ∀ (cfgs : List ConfigAgent) (e : Engine) (cn : String) (seed : Nat),
      (Engine.createAgents e cn cfgs seed).metrics.clustersTotal
        = e.metrics.clustersTotal ∧
      (Engine.createAgents e cn cfgs seed).metrics.requestsTotal
        = e.metrics.requestsTotal ∧
      (Engine.createAgents e cn cfgs seed).metrics.requestsSucceeded
        = e.metrics.requestsSucceeded ∧
      (Engine.createAgents e cn cfgs seed).metrics.requestsFailed
        = e.metrics.requestsFailed ∧
      e.metrics.agentsTotal ≤ (Engine.createAgents e cn cfgs seed).metrics.agentsTotal := by
  intro cfgs
  induction cfgs with
  | nil =>
    intro e cn seed
    exact ⟨rfl, rfl, rfl, rfl, le_refl _⟩
  | cons cfg rest ih =>
    intro e cn seed
    have h := ih (e.createAgent cn cfg seed) cn (seed + 1)
    have hm : (e.createAgent cn cfg seed).metrics.agentsTotal
        = e.metrics.agentsTotal + 1 := rfl
    unfold Engine.createAgents
    refine ⟨h.1, h.2.1, h.2.2.1, h.2.2.2.1, ?_⟩
    have h5 := h.2.2.2.2
    omega

lemma Engine.deployCluster_ok_metrics (e : Engine) (spec : AgentCluster) (now : Nat)
    (e1 : Engine) (h : e.deployCluster spec now = .ok e1) :
    e1.metrics = { e.metrics with clustersTotal := e.metrics.clustersTotal + 1 } := by
  unfold Engine.deployCluster at h
  cases hl : lookupKey e.clusters spec.metadata.name with
  | some c =>
    rw [hl] at h
    exact absurd h (by simp)
  | none =>
    rw [hl] at h
    cases h
    rfl

lemma Engine.stopCluster_ok_metrics (e : Engine) (name : String) (now : Nat)
    (e1 : Engine) (h : e.stopCluster name now = .ok e1) : e1.metrics = e.metrics := by
  unfold Engine.stopCluster at h
  split at h
  · exact absurd h (by simp)
  · split at h
    · cases h
      rfl
    · cases h
      rfl

lemma Engine.deleteCluster_ok_metrics (e : Engine) (name : String) (now : Nat)
    (e1 : Engine) (h : e.deleteCluster name now = .ok e1) :
    e1.metrics.clustersTotal = e.metrics.clustersTotal - 1 ∧
    e1.metrics.agentsTotal = e.metrics.agentsTotal ∧
    e1.metrics.requestsTotal = e.metrics.requestsTotal ∧
    e1.metrics.requestsSucceeded = e.metrics.requestsSucceeded ∧
    e1.metrics.requestsFailed = e.metrics.requestsFailed := by
  unfold Engine.deleteCluster at h
  cases hstop : e.stopCluster name now with
  | error err =>
    rw [hstop] at h
    exact absurd h (by simp)
  | ok e2 =>
    have hm2 := Engine.stopCluster_ok_metrics e name now e2 hstop
    rw [hstop] at h
    replace h : e2.deleteClusterAfterStop name = Except.ok e1 := h
    unfold Engine.deleteClusterAfterStop at h
    cases hl : lookupKey e2.clusters name with
    | none =>
      rw [hl] at h
      exact absurd h (by simp)
    | some c =>
      rw [hl] at h
      cases h
      simp [hm2]

/-- The system-wide metrics effect of Engine.ProcessRequest: either nothing
changes (cluster/agent/provider resolution failed), or requestsTotal is
incremented exactly once together with exactly one of requestsSucceeded or
requestsFailed. -/
lemma Engine.processRequest_metrics (e : Engine) (cn an : String) (req : Request)
    (chat : ChatRequest → Except String ChatResponse) (dur : Int) (now : Nat) :
    (e.processRequest cn an req chat dur now).1.metrics = e.metrics ∨
    ((e.processRequest cn an req chat dur now).1.metrics.requestsTotal
        = e.metrics.requestsTotal + 1 ∧
     (((e.processRequest cn an req chat dur now).1.metrics.requestsSucceeded
          = e.metrics.requestsSucceeded + 1 ∧
       (e.processRequest cn an req chat dur now).1.metrics.requestsFailed
          = e.metrics.requestsFailed) ∨
      ((e.processRequest cn an req chat dur now).1.metrics.requestsSucceeded
          = e.metrics.requestsSucceeded ∧
       (e.processRequest cn an req chat dur now).1.metrics.requestsFailed
          = e.metrics.requestsFailed + 1)) ∧
     (e.processRequest cn an req chat dur now).1.metrics.clustersTotal
        = e.metrics.clustersTotal ∧
     (e.processRequest cn an req chat dur now).1.metrics.agentsTotal
        = e.metrics.agentsTotal) := by
  cases hc : lookupKey e.clusters cn with
  | none =>
    left
    simp [Engine.processRequest, hc]
  | some cluster =>
    cases ha : lookupKey cluster.agents an with
    | none =>
      left
      simp [Engine.processRequest, hc, ha]
    | some agentID =>
      cases hm : e.agentManager.lookupAgent agentID with
      | none =>
        left
        simp [Engine.processRequest, hc, ha, hm]
      | some a =>
        by_cases hp : a.config.provider ∈ e.providerNames
        · cases hchat : chat (buildProviderRequest a req) with
          | error msg =>
            right
            simp [Engine.processRequest, hc, ha, hm, hp, hchat]
          | ok pr =>
            right
            simp [Engine.processRequest, hc, ha, hm, hp, hchat]
        · left
          simp [Engine.processRequest, hc, ha, hm, hp]

/-- The requests-counter effect of an arbitrary engine operation. -/
lemma Engine.step_requests (e : Engine) (op : EngineOp) :
    ((e.step op).metrics.requestsTotal = e.metrics.requestsTotal ∧
     (e.step op).metrics.requestsSucceeded = e.metrics.requestsSucceeded ∧
     (e.step op).metrics.requestsFailed = e.metrics.requestsFailed) ∨
    ((e.step op).metrics.requestsTotal = e.metrics.requestsTotal + 1 ∧
     (((e.step op).metrics.requestsSucceeded = e.metrics.requestsSucceeded + 1 ∧
       (e.step op).metrics.requestsFailed = e.metrics.requestsFailed) ∨
      ((e.step op).metrics.requestsSucceeded = e.metrics.requestsSucceeded ∧
       (e.step op).metrics.requestsFailed = e.metrics.requestsFailed + 1))) := by
  cases op with
  | deployCluster spec now =>
    left
    unfold Engine.step
    cases hd : e.deployCluster spec now with
    | error err => simp [hd]
    | ok e1 =>
      have h := Engine.deployCluster_ok_metrics e spec now e1 hd
      simp [hd, h]
  | startCluster name now =>
    left
    unfold Engine.step Engine.startCluster
    cases hl : lookupKey e.clusters name with
    | none => simp [hl]
    | some c =>
      simp only [hl]
      have h := Engine.createAgents_metrics c.config.spec.agents
        (e.setCluster name fun cl => { cl with status := .running, updatedAt := now })
        name now
      exact ⟨h.2.1, h.2.2.1, h.2.2.2.1⟩
  | stopCluster name now =>
    left
    unfold Engine.step
    cases hs : e.stopCluster name now with
    | error err => simp [hs]
    | ok e1 =>
      have h := Engine.stopCluster_ok_metrics e name now e1 hs
      simp [hs, h]
  | deleteCluster name now =>
    left
    unfold Engine.step
    cases hd : e.deleteCluster name now with
    | error err => simp [hd]
    | ok e1 =>
      have h := Engine.deleteCluster_ok_metrics e name now e1 hd
      simp [hd, h.2.2.1, h.2.2.2.1, h.2.2.2.2]
  | processRequest cn an req chat dur now =>
    have h := Engine.processRequest_metrics e cn an req chat dur now
    unfold Engine.step
    rcases h with h | ⟨h1, h2, h3, h4⟩
    · left
      simp [h]
    · right
      exact ⟨h1, h2⟩

/-- The agentsTotal counter never decreases under any engine operation. -/
lemma Engine.step_agentsTotal (e : Engine) (op : EngineOp) :
    e.metrics.agentsTotal ≤ (e.step op).metrics.agentsTotal := by
  cases op with
  | deployCluster spec now =>
    unfold Engine.step
    cases hd : e.deployCluster spec now with
    | error err => simp [hd]
    | ok e1 =>
      have h := Engine.deployCluster_ok_metrics e spec now e1 hd
      simp [hd, h]
  | startCluster name now =>
    unfold Engine.step Engine.startCluster
    cases hl : lookupKey e.clusters name with
    | none => simp [hl]
    | some c =>
      simp only [hl]
      exact (Engine.createAgents_metrics c.config.spec.agents
        (e.setCluster name fun cl => { cl with status := .running, updatedAt := now })
        name now).2.2.2.2
  | stopCluster name now =>
    unfold Engine.step
    cases hs : e.stopCluster name now with
    | error err => simp [hs]
    | ok e1 =>
      have h := Engine.stopCluster_ok_metrics e name now e1 hs
      simp [hs, h]
  | deleteCluster name now =>
    unfold Engine.step
    cases hd : e.deleteCluster name now with
    | error err => simp [hd]
    | ok e1 =>
      have h := Engine.deleteCluster_ok_metrics e name now e1 hd
      simp [hd, h.2.1]
  | processRequest cn an req chat dur now =>
    have h := Engine.processRequest_metrics e cn an req chat dur now
    unfold Engine.step
    rcases h with h | ⟨h1, h2, h3, h4⟩
    · simp [h]
    · simp [h4]

/-- The quantity requestsTotal − requestsSucceeded − requestsFailed is
preserved by every sequence of engine operations. -/
lemma Engine.foldl_reqSlack : ∀ (ops : List EngineOp) (e : Engine),
    (ops.foldl Engine.step e).metrics.requestsTotal
      - (ops.foldl Engine.step e).metrics.requestsSucceeded
      - (ops.foldl Engine.step e).metrics.requestsFailed
    = e.metrics.requestsTotal - e.metrics.requestsSucceeded - e.metrics.requestsFailed := by
  intro ops
  induction ops with
  | nil => intro e; rfl
  | cons op rest ih =>
    intro e
    rw [List.foldl_cons, ih (e.step op)]
    rcases Engine.step_requests e op with ⟨h1, h2, h3⟩ | ⟨h1, ⟨h2, h3⟩ | ⟨h2, h3⟩⟩ <;> omega

lemma Engine.startCluster_clustersTotal (e : Engine) (name : String) (now : Nat) :
    (e.startCluster name now).metrics.clustersTotal = e.metrics.clustersTotal := by
  unfold Engine.startCluster
  cases hl : lookupKey e.clusters name with
  | none => rfl
  | some c =>
    exact (Engine.createAgents_metrics c.config.spec.agents
      (e.setCluster name fun cl => { cl with status := .running, updatedAt := now })
      name now).1

/-- C5: the claim fails on the code. Deleting the deployed cluster decreases
the clustersTotal counter (DeleteCluster decrements it). -/
theorem c5_counterexample :
    (engC.step (.deleteCluster "c" 5)).metrics.clustersTotal
      < engC.metrics.clustersTotal := by
  decide

/-- C5 (amended): agentsTotal, requestsTotal, requestsSucceeded and
requestsFailed never decrease under any engine operation; clustersTotal never
decreases under deploy, the startCluster fan-out, stop, or request processing
— only DeleteCluster decrements it. -/
theorem c5_amended_counters_monotone :
    (∀ (e : Engine) (op : EngineOp),
      e.metrics.agentsTotal ≤ (e.step op).metrics.agentsTotal ∧
      e.metrics.requestsTotal ≤ (e.step op).metrics.requestsTotal ∧
      e.metrics.requestsSucceeded ≤ (e.step op).metrics.requestsSucceeded ∧
      e.metrics.requestsFailed ≤ (e.step op).metrics.requestsFailed) ∧
    (∀ (e : Engine) (spec : AgentCluster) (now : Nat),
      e.metrics.clustersTotal ≤ (e.step (.deployCluster spec now)).metrics.clustersTotal) ∧
    (∀ (e : Engine) (name : String) (now : Nat),
      (e.step (.startCluster name now)).metrics.clustersTotal = e.metrics.clustersTotal ∧
      (e.step (.stopCluster name now)).metrics.clustersTotal = e.metrics.clustersTotal) ∧
    (∀ (e : Engine) (cn an : String) (req : Request)
        (chat : ChatRequest → Except String ChatResponse) (dur : Int) (now : Nat),
      (e.step (.processRequest cn an req chat dur now)).metrics.clustersTotal
        = e.metrics.clustersTotal) := by
  refine ⟨?_, ?_, ?_, ?_⟩
  · intro e op
    refine ⟨Engine.step_agentsTotal e op, ?_, ?_, ?_⟩ <;>
      rcases Engine.step_requests e op with ⟨h1, h2, h3⟩ | ⟨h1, ⟨h2, h3⟩ | ⟨h2, h3⟩⟩ <;>
      omega
  · intro e spec now
    unfold Engine.step
    cases hd : e.deployCluster spec now with
    | error err => simp [hd]
    | ok e1 =>
      have h := Engine.deployCluster_ok_metrics e spec now e1 hd
      simp only [hd, h]
      omega
  · intro e name now
    constructor
    · exact Engine.startCluster_clustersTotal e name now
    · unfold Engine.step
      cases hs : e.stopCluster name now with
      | error err => simp [hs]
      | ok e1 =>
        have h := Engine.stopCluster_ok_metrics e name now e1 hs
        simp [hs, h]
  · intro e cn an req chat dur now
    rcases Engine.processRequest_metrics e cn an req chat dur now with h | ⟨h1, h2, h3, h4⟩
    · unfold Engine.step
      rw [h]
    · exact h3

/-- C6: the claim fails on the code. At this concrete call (no such cluster)
Engine.ProcessRequest does not increment requestsTotal at all, so it does not
increment it exactly once as claimed. -/
theorem c6_counterexample :
    ((Engine.new []).processRequest "c" "a" sampleReq chatOK 0 0).1.metrics.requestsTotal
      ≠ (Engine.new []).metrics.requestsTotal + 1 := by
  decide

/-- C6 (amended): in every state reachable from a fresh engine,
requestsSucceeded + requestsFailed ≤ requestsTotal; and each ProcessRequest
either leaves all three request counters unchanged (when cluster, agent, or
provider resolution fails) or increments requestsTotal exactly once together
with exactly one of requestsSucceeded or requestsFailed. -/
theorem c6_amended_requests_invariant :
    (∀ (providerNames : List String) (ops : List EngineOp),
      (ops.foldl Engine.step (Engine.new providerNames)).metrics.requestsSucceeded
        + (ops.foldl Engine.step (Engine.new providerNames)).metrics.requestsFailed
      ≤ (ops.foldl Engine.step (Engine.new providerNames)).metrics.requestsTotal) ∧
    (∀ (e : Engine) (cn an : String) (req : Request)
        (chat : ChatRequest → Except String ChatResponse) (dur : Int) (now : Nat),
      ((e.processRequest cn an req chat dur now).1.metrics.requestsTotal
          = e.metrics.requestsTotal ∧
       (e.processRequest cn an req chat dur now).1.metrics.requestsSucceeded
          = e.metrics.requestsSucceeded ∧
       (e.processRequest cn an req chat dur now).1.metrics.requestsFailed
          = e.metrics.requestsFailed) ∨
      ((e.processRequest cn an req chat dur now).1.metrics.requestsTotal
          = e.metrics.requestsTotal + 1 ∧
       (((e.processRequest cn an req chat dur now).1.metrics.requestsSucceeded
            = e.metrics.requestsSucceeded + 1 ∧
         (e.processRequest cn an req chat dur now).1.metrics.requestsFailed
            = e.metrics.requestsFailed) ∨
        ((e.processRequest cn an req chat dur now).1.metrics.requestsSucceeded
            = e.metrics.requestsSucceeded ∧
         (e.processRequest cn an req chat dur now).1.metrics.requestsFailed
            = e.metrics.requestsFailed + 1)))) := by
  constructor
  · intro pn ops
    have h := Engine.foldl_reqSlack ops (Engine.new pn)
    have h0 : (Engine.new pn).metrics.requestsTotal = 0 := rfl
    have h1 : (Engine.new pn).metrics.requestsSucceeded = 0 := rfl
    have h2 : (Engine.new pn).metrics.requestsFailed = 0 := rfl
    omega
  · intro e cn an req chat dur now
    rcases Engine.processRequest_metrics e cn an req chat dur now with h | ⟨h1, h2, h3, h4⟩
    · left
      simp [h]
    · right
      exact ⟨h1, h2⟩

end GoAgents
